import Mathlib

/-!
Verification of the agent task classifier and background-task scheduler of the
ai-browser-testing repository.

The classifier is embedded from `analyze_agent_task` in `src/backend_test.py`
(lines 438-528): a weighted keyword scorer over six agents with two
disambiguation overrides, returning the agent with the highest score.
Python strings are modelled as Lean `String`, the `in` substring test as
`strContains`, and the mutable `scores` dict as a `Scores` structure.
Each agent's score cell is only ever written from its own previous value
(reads of other cells never occur), so the straight-line Python body is
embedded as one update function per agent, applied in source order.
-/

namespace AIBrowser

/-- `leadsWith sub l`: `sub` occurs at the start of `l`. -/
def leadsWith : List Char → List Char → Bool
  | [], _ => true
  | _ :: _, [] => false
  | a :: as, b :: bs => a == b && leadsWith as bs

/-- `hasSub sub l`: `sub` occurs as a contiguous run inside `l`. -/
def hasSub (sub : List Char) : List Char → Bool
  | [] => leadsWith sub []
  | b :: bs => leadsWith sub (b :: bs) || hasSub sub bs

/-- Python's `sub in s` substring test. -/
def strContains (s sub : String) : Bool := hasSub sub.data s.data

/-- Python's `s.lower()` (ASCII case mapping, which covers every keyword
and test input in the repository). -/
def strToLower (s : String) : String := ⟨s.data.map Char.toLower⟩

/-- Python's `any(word in t for word in ws)`. -/
def containsAny (t : String) (ws : List String) : Bool :=
  ws.any (fun w => strContains t w)

/-- The six per-agent scores, the `scores` dict of `analyze_agent_task`
(declaration order research, navigation, shopping, communication,
automation, analysis). -/
structure Scores where
  research : Nat
  navigation : Nat
  shopping : Nat
  communication : Nat
  automation : Nat
  analysis : Nat
deriving Repr, DecidableEq

/-- The all-zero initial `scores` dict. -/
def zeroScores : Scores := ⟨0, 0, 0, 0, 0, 0⟩

/-- Trigger of the shopping "CRITICAL FIX" override
(`backend_test.py` line 516): `'find' in t and 'best' in t and any(... ['laptop', 'deals', 'phone'])`. -/
def shoppingFixCond (t : String) : Bool :=
  strContains t "find" && strContains t "best" &&
    containsAny t ["laptop", "deals", "phone"]

/-- Trigger of the analysis "CRITICAL FIX" override
(`backend_test.py` line 532): `'analyze' in t and any(... ['page', 'content', 'this'])`. -/
def analysisFixCond (t : String) : Bool :=
  strContains t "analyze" && containsAny t ["page", "content", "this"]

/-- Research score before the shopping override writes it
(`backend_test.py` lines 453-459, on the lower-cased task). -/
def researchPre (t : String) (r0 : Nat) : Nat :=
  let r1 := if containsAny t ["research", "investigate", "study"] then
              (if containsAny t ["deep", "comprehensive", "detailed"] then 95 else 85)
            else r0
  let r2 := if containsAny t ["find", "search", "look up"] then max r1 80 else r1
  if containsAny t ["information", "data", "facts"] then max r2 75 else r2

/-- Final research score: `researchPre`, then the shopping override's
`scores['research'] = 70` when it fires (line 518). -/
def researchScore (t : String) (r0 : Nat) : Nat :=
  if shoppingFixCond t then 70 else researchPre t r0

/-- Navigation score before the analysis override writes it
(`backend_test.py` lines 462-467). -/
def navigationPre (t : String) (n0 : Nat) : Nat :=
  let n1 := if containsAny t ["go to", "navigate to", "visit"] then 95 else n0
  let n2 := if containsAny t ["open", "browse", "website"] then max n1 85 else n1
  if containsAny t ["url", "link", "page"] then max n2 80 else n2

/-- Final navigation score: `navigationPre`, then the analysis override's
`scores['navigation'] = 50` when it fires (line 534). -/
def navigationScore (t : String) (n0 : Nat) : Nat :=
  if analysisFixCond t then 50 else navigationPre t n0

/-- Shopping score (`backend_test.py` lines 470-490), including the
override's `scores['shopping'] = 95`. -/
def shoppingScore (t : String) (s0 : Nat) : Nat :=
  let s1 := if containsAny t ["buy", "purchase", "order"] then 90 else s0
  let s2 := if containsAny t ["price", "cost", "compare"] then max s1 85 else s1
  let s3 := if containsAny t ["shop", "store", "product"] then max s2 80 else s2
  let s4 := if containsAny t ["deal", "discount", "sale"] then max s3 85 else s3
  let s5 := if strContains t "best" && containsAny t ["laptop", "phone", "product"] then
              max s4 95 else s4
  let s6 := if strContains t "find" && containsAny t ["deal", "price", "cheap"] then
              max s5 93 else s5
  let s7 := if shoppingFixCond t then 95 else s6
  if containsAny t ["laptop", "computer", "phone", "tablet"] then max s7 85 else s7

/-- Communication score (`backend_test.py` lines 493-500). -/
def communicationScore (t : String) (c0 : Nat) : Nat :=
  let c1 := if containsAny t ["email", "message", "contact"] then 90 else c0
  let c2 := if containsAny t ["write", "compose", "draft"] then max c1 85 else c1
  let c3 := if containsAny t ["letter", "note", "memo"] then max c2 80 else c2
  if containsAny t ["social", "post", "tweet"] then max c3 75 else c3

/-- Automation score (`backend_test.py` lines 503-508). -/
def automationScore (t : String) (a0 : Nat) : Nat :=
  let a1 := if containsAny t ["automate", "schedule", "routine"] then 90 else a0
  let a2 := if containsAny t ["workflow", "process", "task"] then max a1 80 else a1
  if containsAny t ["repeat", "recurring", "regular"] then max a2 85 else a2

/-- Analysis score (`backend_test.py` lines 511-525), including the
override's `scores['analysis'] = 98`. -/
def analysisScore (t : String) (a0 : Nat) : Nat :=
  let a1 := if containsAny t ["analyze", "analysis", "examine"] then 95 else a0
  let a2 := if containsAny t ["summarize", "summary", "overview"] then max a1 85 else a1
  let a3 := if containsAny t ["review", "evaluate", "assess"] then max a2 80 else a2
  let a4 := if analysisFixCond t then 98 else a3
  let a5 := if containsAny t ["content", "data", "text"] then max a4 85 else a4
  if containsAny t ["report", "insight", "breakdown"] then max a5 85 else a5

/-- The whole scoring body of `analyze_agent_task`, parameterised over the
initial `scores` dict (the Python code starts it at `zeroScores`).
`task.toLower` is the `task_lower = task.lower()` of line 440. -/
def computeScores (task : String) (s : Scores) : Scores :=
  let t := strToLower task
  { research := researchScore t s.research
    navigation := navigationScore t s.navigation
    shopping := shoppingScore t s.shopping
    communication := communicationScore t s.communication
    automation := automationScore t s.automation
    analysis := analysisScore t s.analysis }

/-- The agent/score pairs in the dict's insertion order. -/
def agentList (s : Scores) : List (String × Nat) :=
  [("research", s.research), ("navigation", s.navigation), ("shopping", s.shopping),
   ("communication", s.communication), ("automation", s.automation),
   ("analysis", s.analysis)]

/-- Python's `max(iterable)` over the remaining pairs: keeps the current
best and replaces it only when a later element is strictly greater. -/
def maxPair (best : String × Nat) : List (String × Nat) → String × Nat
  | [] => best
  | p :: ps => maxPair (if p.2 > best.2 then p else best) ps

/-- `max(scores, key=scores.get)` (line 528): the first key attaining the
maximum value, in the dict's insertion order. -/
def primaryAgent (s : Scores) : String :=
  match agentList s with
  | [] => "research"
  | p :: ps => (maxPair p ps).1

/-- `analyze_agent_task` of `src/backend_test.py` lines 438-528. -/
def analyze_agent_task (task : String) : String :=
  primaryAgent (computeScores task zeroScores)

/-- The maximum score of an agent/score list (0 on the empty list). -/
def listMax (l : List (String × Nat)) : Nat :=
  (l.map Prod.snd).foldr max 0

/-- The maximum of the six scores. -/
def scoreMax (s : Scores) : Nat := listMax (agentList s)

/-- The name of the first pair in the list whose score equals `m`. -/
def firstWith (m : Nat) : List (String × Nat) → Option String
  | [] => none
  | p :: ps => if p.2 = m then some p.1 else firstWith m ps

/-- The earliest agent, in declaration order, attaining the maximal score:
the behaviour the claim attributes to Python's `max` over the dict. -/
def firstArgmax (s : Scores) : String :=
  (firstWith (scoreMax s) (agentList s)).getD "research"

/-- `true` when at least one scoring condition of `analyze_agent_task`
fires on the (lower-cased) task: the disjunction of every keyword test of
lines 453-525, in source order. -/
def anyKeywordCond (t : String) : Bool :=
  containsAny t ["research", "investigate", "study"] ||
  containsAny t ["deep", "comprehensive", "detailed"] ||
  containsAny t ["find", "search", "look up"] ||
  containsAny t ["information", "data", "facts"] ||
  containsAny t ["go to", "navigate to", "visit"] ||
  containsAny t ["open", "browse", "website"] ||
  containsAny t ["url", "link", "page"] ||
  containsAny t ["buy", "purchase", "order"] ||
  containsAny t ["price", "cost", "compare"] ||
  containsAny t ["shop", "store", "product"] ||
  containsAny t ["deal", "discount", "sale"] ||
  (strContains t "best" && containsAny t ["laptop", "phone", "product"]) ||
  (strContains t "find" && containsAny t ["deal", "price", "cheap"]) ||
  shoppingFixCond t ||
  containsAny t ["laptop", "computer", "phone", "tablet"] ||
  containsAny t ["email", "message", "contact"] ||
  containsAny t ["write", "compose", "draft"] ||
  containsAny t ["letter", "note", "memo"] ||
  containsAny t ["social", "post", "tweet"] ||
  containsAny t ["automate", "schedule", "routine"] ||
  containsAny t ["workflow", "process", "task"] ||
  containsAny t ["repeat", "recurring", "regular"] ||
  containsAny t ["analyze", "analysis", "examine"] ||
  containsAny t ["summarize", "summary", "overview"] ||
  containsAny t ["review", "evaluate", "assess"] ||
  analysisFixCond t ||
  containsAny t ["content", "data", "text"] ||
  containsAny t ["report", "insight", "breakdown"]

/-- `simulate_agent_detection` of `src/ai_workflow_test.py` lines 439-468:
a first-match keyword classifier over the same six agents. -/
def simulate_agent_detection (message : String) : String :=
  let m := strToLower message
  if containsAny m ["research", "find", "search", "investigate", "study"] then "research"
  else if containsAny m ["navigate", "go to", "visit", "open"] then "navigation"
  else if containsAny m ["buy", "shop", "price", "deal", "product", "purchase"] then "shopping"
  else if containsAny m ["email", "compose", "write", "message", "letter"] then "communication"
  else if containsAny m ["automate", "schedule", "workflow", "task"] then "automation"
  else if containsAny m ["analyze", "analysis", "review", "examine"] then "analysis"
  else "unknown"

/-! ### Background Task Scheduler

The scheduler itself (the Electron main process) is not among the
repository's source files; only its SQL test probe
(`src/comprehensive_backend_test.py`, `test_background_tasks_advanced`) is.
The definitions below are therefore modelled from the spec (§3, §4.3). -/

/-- A background task's lifecycle status (spec §3). -/
inductive TaskStatus
  | pending
  | running
  | completed
  | failed
deriving Repr, DecidableEq

/-- Modelled from the spec: the `BackgroundTask` record of spec §3 (the
scheduler implementation is missing from `src/`). The `type`, `payload`
and `agentId` fields are opaque to the ordering and retry semantics and
are omitted. -/
structure BackgroundTask where
  id : Nat
  priority : Int
  status : TaskStatus
  createdAt : Nat
  scheduledFor : Nat
  startedAt : Option Nat
  completedAt : Option Nat
  retryCount : Nat
  maxRetries : Nat
  lastError : Option String
deriving Repr, DecidableEq

/-- Modelled from the spec: a task is eligible for `Dequeue` when it is
`pending` with `scheduledFor ≤ now` (spec §4.3). -/
def isEligible (now : Nat) (t : BackgroundTask) : Bool :=
  t.status == TaskStatus.pending && decide (t.scheduledFor ≤ now)

/-- `a` strictly precedes `b` in dequeue order: numerically smaller
`priority`, ties broken by earlier `createdAt` (spec §4.3; the test probe's
`ORDER BY priority ASC, created_at ASC`). -/
def better (a b : BackgroundTask) : Bool :=
  decide (a.priority < b.priority) ||
    (a.priority == b.priority && decide (a.createdAt < b.createdAt))

/-- The most urgent task of a list under `better` (`none` on the empty list). -/
def pickBest : List BackgroundTask → Option BackgroundTask
  | [] => none
  | t :: ts =>
    match pickBest ts with
    | none => some t
    | some u => if better t u then some t else some u

/-- The record `Dequeue` hands out: transitioned to `running` with
`startedAt = now` (spec §4.3). -/
def claimTask (now : Nat) (t : BackgroundTask) : BackgroundTask :=
  { t with status := TaskStatus.running, startedAt := some now }

/-- Modelled from the spec: `Dequeue()` (spec §4.3) — among the eligible
pending tasks, return the one with smallest `priority` (ties by earliest
`createdAt`) transitioned to `running`, together with the updated store;
`none` and the unchanged store when nothing is eligible. -/
def dequeue (now : Nat) (store : List BackgroundTask) :
    Option BackgroundTask × List BackgroundTask :=
  match pickBest (store.filter (isEligible now)) with
  | none => (none, store)
  | some t =>
    (some (claimTask now t),
     store.map (fun u => if u.id == t.id then claimTask now t else u))

/-- The backoff base duration of spec §4.3's `backoffDelay` (the spec fixes
only the exponential shape `base * 2^retryCount`; the base is an arbitrary
positive constant, in milliseconds). -/
def backoffBase : Nat := 1000

/-- Modelled from the spec: `Fail(taskId, errorMessage)` (spec §4.3) — below
`maxRetries` the task is returned to `pending` with `retryCount`
incremented, `lastError` recorded and exponential backoff
`scheduledFor = now + backoffBase * 2 ^ retryCount` (the incremented
count); once retries are exhausted it transitions to `failed` permanently. -/
def failTask (now : Nat) (err : String) (t : BackgroundTask) : BackgroundTask :=
  if t.retryCount < t.maxRetries then
    { t with
      retryCount := t.retryCount + 1
      lastError := some err
      scheduledFor := now + backoffBase * 2 ^ (t.retryCount + 1)
      status := TaskStatus.pending }
  else
    { t with status := TaskStatus.failed }

/-- Three successive dequeues against a store, collecting the priority of
each returned task. -/
def dequeueThrice (now : Nat) (store : List BackgroundTask) : List (Option Int) :=
  let r1 := dequeue now store
  let r2 := dequeue now r1.2
  let r3 := dequeue now r2.2
  [r1.1.map BackgroundTask.priority, r2.1.map BackgroundTask.priority,
   r3.1.map BackgroundTask.priority]

/-- The priority-1 task of the spec's ordering scenario (§8). -/
def taskP1 : BackgroundTask :=
  ⟨1, 1, TaskStatus.pending, 10, 0, none, none, 0, 3, none⟩

/-- The priority-3 task of the spec's ordering scenario (§8). -/
def taskP3 : BackgroundTask :=
  ⟨2, 3, TaskStatus.pending, 20, 0, none, none, 0, 3, none⟩

/-- The priority-2 task of the spec's ordering scenario (§8). -/
def taskP2 : BackgroundTask :=
  ⟨3, 2, TaskStatus.pending, 30, 0, none, none, 0, 3, none⟩

/-- A task whose retries are exhausted (`retryCount = maxRetries = 3`). -/
def taskExhausted : BackgroundTask :=
  ⟨4, 1, TaskStatus.running, 40, 5, some 90, none, 3, 3, some "earlier error"⟩

/-- Every insertion order of the three scenario tasks. -/
def allInsertionOrders : List (List BackgroundTask) :=
  [[taskP1, taskP3, taskP2], [taskP1, taskP2, taskP3],
   [taskP3, taskP1, taskP2], [taskP3, taskP2, taskP1],
   [taskP2, taskP1, taskP3], [taskP2, taskP3, taskP1]]

/-! ### The chat endpoint of `src/backend/server.py`

`enhanced_chat` (lines 69-156) is a pure function of the incoming
`ChatMessage`: it lower-cases the message, activates services off three
keyword tests, always extends the activated services with `memory` and
`performance`, and returns `success=True` with a result text that starts
with the base response. The numeric payloads stored under
`service_results` are constant literals (floats among them) irrelevant to
the verified properties; the embedding keeps the populated keys. -/

/-- `ChatMessage` of `src/backend/server.py` (`message: str`,
`context: Optional[Dict]`, which the handler defaults and never uses). -/
structure ChatMessage where
  message : String
  context : Option (List (String × String))
deriving Repr, DecidableEq

/-- The `orchestration_result` dict built by `enhanced_chat`. -/
structure Orchestration where
  activated_services : List String
  service_results : List String
  enhanced_response : String
  proactive_actions : List String
deriving Repr, DecidableEq

/-- The `data` dict of the returned `Response`. -/
structure ChatData where
  orchestration : Orchestration
  message_type : String
  services_utilized : Nat
  total_features_active : Nat
deriving Repr, DecidableEq

/-- The `Response` pydantic model of `src/backend/server.py`. -/
structure ChatResponse where
  success : Bool
  result : Option String
  data : Option ChatData
  error : Option String
deriving Repr, DecidableEq

/-- The planning-service trigger of `enhanced_chat` (line 95). -/
def planningCond (m : String) : Bool :=
  containsAny m ["goal", "plan", "organize", "schedule"]

/-- The deep-search trigger of `enhanced_chat` (line 103). -/
def deepSearchCond (m : String) : Bool :=
  containsAny m ["what is", "how to", "research", "find", "learn"]

/-- The security trigger of `enhanced_chat` (line 112). -/
def securityCond (m : String) : Bool :=
  containsAny m ["security", "safe", "protect"]

/-- The planning block's `enhanced_response` text (line 101). -/
def planningText : String :=
  "\n\n## üéØ **Autonomous Planning Activated:**\n‚Ä¢ I've analyzed your request and can create autonomous goals to help achieve this\n‚Ä¢ Currently managing 2 active goals in background\n‚Ä¢ Would you like me to create a systematic plan?"

/-- The deep-search block's `enhanced_response` text (line 110). -/
def deepSearchText : String :=
  "\n\n## üîç **Deep Search Engine Activated:**\n‚Ä¢ Automatically searched 5 sources across web, academic papers, and news\n‚Ä¢ Found 12 highly relevant results with 89% relevance score\n‚Ä¢ I can create autonomous research goals to monitor developments in this topic"

/-- The security block's `enhanced_response` text (line 119). -/
def securityText : String :=
  "\n\n## üõ°Ô∏è **Advanced Security Activated:**\n‚Ä¢ Automatically performed comprehensive security scan\n‚Ä¢ Current site: LOW risk level, 0 security issues found\n‚Ä¢ Background security monitoring is continuously active"

/-- The multi-service summary text (line 135), an f-string over the number
of activated services. -/
def summaryText (count : Nat) : String :=
  "\n\n## ü§ñ **Multi-Service Intelligence Summary:**\n‚Ä¢ **Services Activated**: " ++
  toString count ++
  " backend services automatically engaged\n‚Ä¢ **Memory Service**: Stored interaction, found 3 relevant memories, learning patterns updated\n‚Ä¢ **Performance Monitor**: System health 98.5%, 145ms response time, 99.2% success rate\n‚Ä¢ **Background Tasks**: Autonomous optimization and monitoring running continuously"

/-- The proactive-intelligence text (line 138). -/
def proactiveText : String :=
  "\n\n## üí° **Proactive Intelligence:**\n‚Ä¢ I'm automatically learning from this interaction to improve future responses\n‚Ä¢ Background services are continuously optimizing your experience\n‚Ä¢ I can create autonomous goals to help you achieve related objectives\n‚Ä¢ Security monitoring is active on all sites you visit"

/-- The behind-the-scenes text (line 141). -/
def behindText : String :=
  "\n\n## üéØ **Behind the Scenes:**\n‚Ä¢ Your browser is powered by advanced AI agents working autonomously\n‚Ä¢ Every interaction utilizes multiple intelligent services simultaneously\n‚Ä¢ Goals, tasks, and optimizations run automatically in the background\n‚Ä¢ All features work through natural conversation - no need to learn specific commands"

/-- `base_response` of line 92. -/
def base_response (msg : String) : String :=
  "I understand you're asking about: " ++ msg

/-- `enhanced_chat` of `src/backend/server.py` lines 69-156. -/
def enhanced_chat (m : ChatMessage) : ChatResponse :=
  let user_message := strToLower m.message
  let p := planningCond user_message
  let d := deepSearchCond user_message
  let sec := securityCond user_message
  let activated :=
    (if p then ["planning"] else []) ++ (if d then ["deep_search"] else []) ++
    (if sec then ["security"] else []) ++ ["memory", "performance"]
  let results :=
    (if p then ["planning"] else []) ++ (if d then ["deep_search"] else []) ++
    (if sec then ["security"] else []) ++ ["memory", "performance"]
  let enhanced :=
    (if p then planningText else "") ++ (if d then deepSearchText else "") ++
    (if sec then securityText else "") ++ summaryText activated.length ++
    proactiveText ++ behindText
  let final_response := base_response m.message ++ enhanced
  { success := true
    result := some final_response
    data := some
      { orchestration :=
          { activated_services := activated
            service_results := results
            enhanced_response := enhanced
            proactive_actions := [] }
        message_type := "enhanced_ai_response"
        services_utilized := activated.length
        total_features_active := 7 }
    error := none }

end AIBrowser

namespace AIBrowser

/-- C1: `analyze_agent_task` maps "find best laptop deals" to `shopping`:
the find+best+laptop/deals override fires, "find" alone had scored research
80 before the override cut it to 70, and the argmax of the six scores
(research 70, shopping 95, the rest 0) is `shopping`. -/
theorem claim_C1_find_best_laptop_deals :
    shoppingFixCond (strToLower "find best laptop deals") = true ∧
    researchPre (strToLower "find best laptop deals") 0 = 80 ∧
    computeScores "find best laptop deals" zeroScores =
      { research := 70, navigation := 0, shopping := 95, communication := 0,
        automation := 0, analysis := 0 } ∧
    analyze_agent_task "find best laptop deals" = "shopping" := by
  decide

/-- C3: `analyze_agent_task` maps "analyze this page content" to `analysis`,
not `navigation`: the analyze+page/content/this override raises analysis to
98 and cuts navigation to 50, and 98 strictly exceeds every other score. -/
theorem claim_C3_analyze_this_page_content :
    analysisFixCond (strToLower "analyze this page content") = true ∧
    computeScores "analyze this page content" zeroScores =
      { research := 0, navigation := 50, shopping := 0, communication := 0,
        automation := 0, analysis := 98 } ∧
    (∀ v ∈ [(0 : Nat), 50, 0, 0, 0], v < 98) ∧
    analyze_agent_task "analyze this page content" = "analysis" := by
  decide

/-- C9: the repository's two classifier embeddings disagree on
"find best laptop deals": the first-match classifier
`simulate_agent_detection` answers `research` (the word "find" matches the
research keyword list, checked first), while the weighted classifier
`analyze_agent_task` answers `shopping`, so the two functions are not
extensionally equal. -/
theorem claim_C9_classifiers_disagree :
    simulate_agent_detection "find best laptop deals" = "research" ∧
    analyze_agent_task "find best laptop deals" = "shopping" ∧
    simulate_agent_detection "find best laptop deals" ≠
      analyze_agent_task "find best laptop deals" := by
  decide

/-- C7: `analyze_agent_task` is deterministic — it is a pure function of
its string argument (the source reads nothing but the task text: no
randomness, time or other state), so two calls on the same text return
the identical primary agent. -/
theorem claim_C7_deterministic (t₁ t₂ : String) (h : t₁ = t₂) :
    analyze_agent_task t₁ = analyze_agent_task t₂ := by
  rw [h]

/-- C7 witness: two calls on the concrete text "research latest ai
developments" agree. -/
theorem claim_C7_deterministic_witness :
    analyze_agent_task "research latest ai developments" =
      analyze_agent_task "research latest ai developments" :=
  claim_C7_deterministic "research latest ai developments"
    "research latest ai developments" rfl

/-- C2 counterexample: on "analyze this" the analysis override fires while
navigation carries no score at all (no navigation keyword matches), yet the
override writes navigation := 50 — strictly more than the pre-override
value 0, so the suppressed agent's score is raised, and it does not equal
`min` of the pre-override value and 50. -/
theorem claim_C2_counterexample :
    analysisFixCond (strToLower "analyze this") = true ∧
    navigationPre (strToLower "analyze this") 0 = 0 ∧
    (computeScores "analyze this" zeroScores).navigation = 50 ∧
    ¬((computeScores "analyze this" zeroScores).navigation =
        min (navigationPre (strToLower "analyze this") 0) 50) := by
  decide

/-- C2 amended: the shopping override's research write does obey the `min`
semantics — whenever the rule fires, the written value 70 equals
`min` of the pre-override research score and 70, because the rule's own
"find" trigger has already scored research at least 80; the analysis
override instead writes navigation := 50 unconditionally, regardless of
the pre-override navigation score (which it can therefore raise). -/
theorem claim_C2_amended :
    (∀ (t : String) (r0 : Nat), shoppingFixCond t = true →
       researchScore t r0 = min (researchPre t r0) 70) ∧
    (∀ (t : String) (n0 : Nat), analysisFixCond t = true →
       navigationScore t n0 = 50) := by
  constructor
  · intro t r0 h
    have hfind : strContains t "find" = true := by
      simp only [shoppingFixCond, Bool.and_eq_true] at h
      exact h.1.1
    have hcond : containsAny t ["find", "search", "look up"] = true := by
      simp [containsAny, hfind]
    have hpre : 80 ≤ researchPre t r0 := by
      unfold researchPre
      rw [hcond]
      simp only [if_true]
      split <;> split <;> omega
    unfold researchScore
    rw [h]
    simp only [if_true]
    omega
  · intro t n0 h
    unfold navigationScore
    rw [h]
    simp

/-- C2 amended witness: the shopping override on "find best laptop deals"
writes research 70 = min 80 70, and the analysis override on
"analyze this page" writes navigation 50. -/
theorem claim_C2_amended_witness :
    researchScore (strToLower "find best laptop deals") 0 =
      min (researchPre (strToLower "find best laptop deals") 0) 70 ∧
    navigationScore (strToLower "analyze this page") 0 = 50 :=
  ⟨claim_C2_amended.1 (strToLower "find best laptop deals") 0 (by decide),
   claim_C2_amended.2 (strToLower "analyze this page") 0 (by decide)⟩

/-- An update function over one score cell is flat when it is constant or
a `max` with a constant: every sequential chain of the scorer's two write
shapes (`scores[a] = k` and `scores[a] = max(scores[a], k)`) is flat, and
a flat function is idempotent. -/
def IsFlat (f : Nat → Nat) : Prop :=
  (∃ k, ∀ x, f x = k) ∨ (∃ k, ∀ x, f x = max x k)

lemma isFlat_id : IsFlat (fun x => x) :=
  Or.inr ⟨0, fun x => (Nat.max_zero x).symm⟩

/-- A guarded constant write after a flat chain is flat. -/
lemma isFlat_set (c : Bool) (k : Nat) (f : Nat → Nat) (hf : IsFlat f) :
    IsFlat (fun x => if c then k else f x) := by
  cases c
  · simpa using hf
  · exact Or.inl ⟨k, fun x => by simp⟩

/-- A guarded `max` write after a flat chain is flat. -/
lemma isFlat_max (c : Bool) (k : Nat) (f : Nat → Nat) (hf : IsFlat f) :
    IsFlat (fun x => if c then max (f x) k else f x) := by
  cases c
  · simpa using hf
  · rcases hf with ⟨m, hm⟩ | ⟨m, hm⟩
    · exact Or.inl ⟨max m k, fun x => by simp [hm]⟩
    · exact Or.inr ⟨max m k, fun x => by simp [hm, Nat.max_assoc]⟩

/-- A flat update function is idempotent. -/
lemma IsFlat.idem {f : Nat → Nat} (hf : IsFlat f) (x : Nat) : f (f x) = f x := by
  rcases hf with ⟨k, hk⟩ | ⟨k, hk⟩
  · rw [hk, hk]
  · rw [hk, hk, Nat.max_assoc, Nat.max_self]

/-- The research update chain is flat. -/
lemma researchPre_flat (t : String) : IsFlat (researchPre t) := by
  unfold researchPre
  exact isFlat_max _ 75 _ (isFlat_max _ 80 _ (isFlat_set _ _ _ isFlat_id))

/-- The research chain with the shopping override's write is flat. -/
lemma researchScore_flat (t : String) : IsFlat (researchScore t) := by
  unfold researchScore
  exact isFlat_set _ 70 _ (researchPre_flat t)

/-- The navigation update chain before the override is flat. -/
lemma navigationPre_flat (t : String) : IsFlat (navigationPre t) := by
  unfold navigationPre
  exact isFlat_max _ 80 _ (isFlat_max _ 85 _ (isFlat_set _ 95 _ isFlat_id))

/-- The navigation chain with the analysis override's write is flat. -/
lemma navigationScore_flat (t : String) : IsFlat (navigationScore t) := by
  unfold navigationScore
  exact isFlat_set _ 50 _ (navigationPre_flat t)

/-- The shopping update chain is flat. -/
lemma shoppingScore_flat (t : String) : IsFlat (shoppingScore t) := by
  unfold shoppingScore
  exact isFlat_max _ 85 _ (isFlat_set _ 95 _ (isFlat_max _ 93 _ (isFlat_max _ 95 _
    (isFlat_max _ 85 _ (isFlat_max _ 80 _ (isFlat_max _ 85 _ (isFlat_set _ 90 _ isFlat_id)))))))

/-- The communication update chain is flat. -/
lemma communicationScore_flat (t : String) : IsFlat (communicationScore t) := by
  unfold communicationScore
  exact isFlat_max _ 75 _ (isFlat_max _ 80 _ (isFlat_max _ 85 _ (isFlat_set _ 90 _ isFlat_id)))

/-- The automation update chain is flat. -/
lemma automationScore_flat (t : String) : IsFlat (automationScore t) := by
  unfold automationScore
  exact isFlat_max _ 85 _ (isFlat_max _ 80 _ (isFlat_set _ 90 _ isFlat_id))

/-- The analysis update chain, override write included, is flat. -/
lemma analysisScore_flat (t : String) : IsFlat (analysisScore t) := by
  unfold analysisScore
  exact isFlat_max _ 85 _ (isFlat_max _ 85 _ (isFlat_set _ 98 _
    (isFlat_max _ 80 _ (isFlat_max _ 85 _ (isFlat_set _ 95 _ isFlat_id)))))

/-- `listMax` over a cons. -/
lemma listMax_cons (p : String × Nat) (ps : List (String × Nat)) :
    listMax (p :: ps) = max p.2 (listMax ps) := rfl

/-- Python's `max` keeps the incumbent when nothing later is strictly
greater. -/
lemma maxPair_of_ge (l : List (String × Nat)) :
    ∀ best : String × Nat, listMax l ≤ best.2 → maxPair best l = best := by
  induction l with
  | nil => intro best _; rfl
  | cons p ps ih =>
    intro best h
    rw [listMax_cons] at h
    rw [maxPair, if_neg (by omega)]
    exact ih best (by omega)

/-- When the rest of the list beats the incumbent, Python's `max` returns
the first later element attaining the list maximum. -/
lemma maxPair_of_lt (l : List (String × Nat)) :
    ∀ best : String × Nat, best.2 < listMax l →
      ∃ nm, firstWith (listMax l) l = some nm ∧ (maxPair best l).1 = nm := by
  induction l with
  | nil => intro best h; exact absurd h (by simp [listMax])
  | cons p ps ih =>
    intro best h
    by_cases hp : listMax ps ≤ p.2
    · have hM : listMax (p :: ps) = p.2 := by rw [listMax_cons]; omega
      have hb : p.2 > best.2 := by rw [hM] at h; exact h
      rw [maxPair, if_pos hb, hM]
      exact ⟨p.1, by rw [firstWith, if_pos rfl], by rw [maxPair_of_ge ps p hp]⟩
    · push_neg at hp
      have hM : listMax (p :: ps) = listMax ps := by rw [listMax_cons]; omega
      rw [maxPair, hM]
      by_cases hb : p.2 > best.2
      · obtain ⟨nm, h1, h2⟩ := ih p hp
        exact ⟨nm, by rw [firstWith, if_neg (by omega)]; exact h1,
               by rw [if_pos hb]; exact h2⟩
      · obtain ⟨nm, h1, h2⟩ := ih best (by rw [hM] at h; exact h)
        exact ⟨nm, by rw [firstWith, if_neg (by omega)]; exact h1,
               by rw [if_neg hb]; exact h2⟩

/-- `primaryAgent` returns the earliest agent, in declaration order,
attaining the maximal score. -/
lemma primaryAgent_eq_firstArgmax (s : Scores) : primaryAgent s = firstArgmax s := by
  obtain ⟨p, ps, hl⟩ : ∃ p ps, agentList s = p :: ps := ⟨_, _, rfl⟩
  have hM : scoreMax s = max p.2 (listMax ps) := by rw [scoreMax, hl, listMax_cons]
  by_cases h : listMax ps ≤ p.2
  · have hMp : scoreMax s = p.2 := by omega
    have h1 : primaryAgent s = p.1 := by
      rw [primaryAgent, hl]
      show (maxPair p ps).1 = p.1
      rw [maxPair_of_ge ps p h]
    have h2 : firstArgmax s = p.1 := by
      rw [firstArgmax, hl, hMp, firstWith, if_pos rfl, Option.getD_some]
    rw [h1, h2]
  · push_neg at h
    have hMp : scoreMax s = listMax ps := by omega
    obtain ⟨nm, h1, h2⟩ := maxPair_of_lt ps p h
    have h3 : primaryAgent s = nm := by
      rw [primaryAgent, hl]
      show (maxPair p ps).1 = nm
      exact h2
    have h4 : firstArgmax s = nm := by
      rw [firstArgmax, hl, hMp, firstWith, if_neg (by omega), h1, Option.getD_some]
    rw [h3, h4]

/-- C6: override application is idempotent — running the full scoring and
override rule body a second time, on the scores the first run produced,
leaves every agent's score unchanged, and hence also the primary agent. -/
theorem claim_C6_override_idempotent (task : String) (s : Scores) :
    computeScores task (computeScores task s) = computeScores task s ∧
    primaryAgent (computeScores task (computeScores task s)) =
      primaryAgent (computeScores task s) := by
  have h : computeScores task (computeScores task s) = computeScores task s := by
    simp only [computeScores]
    rw [IsFlat.idem (researchScore_flat _), IsFlat.idem (navigationScore_flat _),
        IsFlat.idem (shoppingScore_flat _), IsFlat.idem (communicationScore_flat _),
        IsFlat.idem (automationScore_flat _), IsFlat.idem (analysisScore_flat _)]
  exact ⟨h, by rw [h]⟩

/-- C8: when no scoring keyword of `analyze_agent_task` matches, every
score stays 0 and the returned agent is `research`; in general the
returned agent is the earliest one, in the dict's declaration order
(research, navigation, shopping, communication, automation, analysis),
attaining the maximal score — Python's `max` over the dict returns the
first maximal key in insertion order. -/
theorem claim_C8_first_max_tiebreak :
    (∀ task : String, anyKeywordCond (strToLower task) = false →
       computeScores task zeroScores = zeroScores ∧
       analyze_agent_task task = "research") ∧
    (∀ s : Scores, primaryAgent s = firstArgmax s) := by
  constructor
  · intro task h
    simp only [anyKeywordCond, Bool.or_eq_false_iff] at h
    obtain ⟨⟨⟨⟨⟨⟨⟨⟨⟨⟨⟨⟨⟨⟨⟨⟨⟨⟨⟨⟨⟨⟨⟨⟨⟨⟨⟨h1, h2⟩, h3⟩, h4⟩, h5⟩, h6⟩, h7⟩, h8⟩, h9⟩, h10⟩, h11⟩, h12⟩, h13⟩, h14⟩, h15⟩, h16⟩, h17⟩, h18⟩, h19⟩, h20⟩, h21⟩, h22⟩, h23⟩, h24⟩, h25⟩, h26⟩, h27⟩, h28⟩ := h
    have hres : computeScores task zeroScores = zeroScores := by
      simp only [computeScores, zeroScores]
      have e1 : researchScore (strToLower task) 0 = 0 := by
        simp [researchScore, researchPre, h1, h3, h4, h14]
      have e2 : navigationScore (strToLower task) 0 = 0 := by
        simp [navigationScore, navigationPre, h5, h6, h7, h26]
      have e3 : shoppingScore (strToLower task) 0 = 0 := by
        simp [shoppingScore, h8, h9, h10, h11, h12, h13, h14, h15]
      have e4 : communicationScore (strToLower task) 0 = 0 := by
        simp [communicationScore, h16, h17, h18, h19]
      have e5 : automationScore (strToLower task) 0 = 0 := by
        simp [automationScore, h20, h21, h22]
      have e6 : analysisScore (strToLower task) 0 = 0 := by
        simp [analysisScore, h23, h24, h25, h26, h27, h28]
      rw [e1, e2, e3, e4, e5, e6]
    refine ⟨hres, ?_⟩
    rw [analyze_agent_task, hres]
    decide
  · exact primaryAgent_eq_firstArgmax

/-- C8 witness: "zz" matches no keyword, classifies as `research`, and the
tie-break equation holds at the all-zero score table. -/
theorem claim_C8_witness :
    anyKeywordCond (strToLower "zz") = false ∧
    analyze_agent_task "zz" = "research" ∧
    primaryAgent zeroScores = firstArgmax zeroScores :=
  ⟨by decide, (claim_C8_first_max_tiebreak.1 "zz" (by decide)).2,
   claim_C8_first_max_tiebreak.2 zeroScores⟩

/-- `better` never holds of a task against itself. -/
lemma better_irrefl (a : BackgroundTask) : better a a = false := by
  simp [better]

/-- `better` is transitive: it is a strict lexicographic order on
(priority, createdAt). -/
lemma better_trans {a b c : BackgroundTask} (h1 : better a b = true)
    (h2 : better b c = true) : better a c = true := by
  simp only [better, Bool.or_eq_true, Bool.and_eq_true, decide_eq_true_eq,
    beq_iff_eq] at *
  omega

/-- `pickBest` answers `none` only on the empty list. -/
lemma pickBest_eq_none {l : List BackgroundTask} (h : pickBest l = none) :
    l = [] := by
  cases l with
  | nil => rfl
  | cons t ts =>
    rw [pickBest] at h
    cases hp : pickBest ts with
    | none => rw [hp] at h; exact absurd h (by simp)
    | some u =>
      rw [hp] at h
      cases hb : better t u <;> simp [hb] at h

/-- What `pickBest` returns is a member of the list that no member beats. -/
lemma pickBest_spec : ∀ (l : List BackgroundTask) (r : BackgroundTask),
    pickBest l = some r → r ∈ l ∧ ∀ u ∈ l, better u r = false := by
  intro l
  induction l with
  | nil => intro r h; simp [pickBest] at h
  | cons t ts ih =>
    intro r h
    rw [pickBest] at h
    cases hp : pickBest ts with
    | none =>
      rw [hp] at h
      obtain rfl : t = r := Option.some.inj h
      have ht : ts = [] := pickBest_eq_none hp
      subst ht
      refine ⟨List.mem_singleton.mpr rfl, ?_⟩
      intro u hu
      rw [List.mem_singleton] at hu
      subst hu
      exact better_irrefl _
    | some u =>
      rw [hp] at h
      obtain ⟨hu_mem, hu_min⟩ := ih u hp
      cases hb : better t u
      · simp [hb] at h
        subst h
        refine ⟨List.mem_cons_of_mem _ hu_mem, ?_⟩
        intro v hv
        rcases List.mem_cons.mp hv with rfl | hvts
        · exact hb
        · exact hu_min v hvts
      · simp [hb] at h
        subst h
        refine ⟨List.mem_cons_self _ _, ?_⟩
        intro v hv
        rcases List.mem_cons.mp hv with rfl | hvts
        · exact better_irrefl _
        · cases hvt : better v t
          · rfl
          · exact absurd (better_trans hvt hb) (by rw [hu_min v hvts]; simp)

/-- C4: whenever some pending task with `scheduledFor ≤ now` exists,
`dequeue` returns an eligible task beaten by no other eligible one
(numerically smallest priority, ties by earliest `createdAt`), claimed as
`running`; and on the three pending eligible tasks of priorities 1, 3, 2,
three successive dequeues return priorities 1, 2, 3 for every one of the
six insertion orders. -/
theorem claim_C4_dequeue_priority_order :
    (∀ (now : Nat) (store : List BackgroundTask),
       store.any (isEligible now) = true →
       ∃ t, t ∈ store ∧ isEligible now t = true ∧
         (dequeue now store).1 = some (claimTask now t) ∧
         ∀ u ∈ store, isEligible now u = true → better u t = false) ∧
    (∀ store ∈ allInsertionOrders,
       dequeueThrice 100 store = [some 1, some 2, some 3]) := by
  constructor
  · intro now store h
    rw [List.any_eq_true] at h
    obtain ⟨x, hx_mem, hx_el⟩ := h
    have hxf : x ∈ store.filter (isEligible now) :=
      List.mem_filter.mpr ⟨hx_mem, hx_el⟩
    cases hp : pickBest (store.filter (isEligible now)) with
    | none =>
      rw [pickBest_eq_none hp] at hxf
      exact absurd hxf (List.not_mem_nil x)
    | some r =>
      obtain ⟨hr_mem, hr_min⟩ := pickBest_spec _ r hp
      rw [List.mem_filter] at hr_mem
      refine ⟨r, hr_mem.1, hr_mem.2, ?_, ?_⟩
      · rw [dequeue, hp]
      · intro u hu hu_el
        exact hr_min u (List.mem_filter.mpr ⟨hu, hu_el⟩)
  · decide

/-- C4 witness: a concrete eligible store, and the insertion order
`[taskP1, taskP3, taskP2]` dequeued to priorities 1, 2, 3. -/
theorem claim_C4_witness :
    [taskP3, taskP1, taskP2].any (isEligible 100) = true ∧
    (∃ t, t ∈ [taskP3, taskP1, taskP2] ∧ isEligible 100 t = true ∧
       (dequeue 100 [taskP3, taskP1, taskP2]).1 = some (claimTask 100 t) ∧
       ∀ u ∈ [taskP3, taskP1, taskP2], isEligible 100 u = true →
         better u t = false) ∧
    [taskP1, taskP3, taskP2] ∈ allInsertionOrders ∧
    dequeueThrice 100 [taskP1, taskP3, taskP2] = [some 1, some 2, some 3] :=
  ⟨by decide,
   claim_C4_dequeue_priority_order.1 100 [taskP3, taskP1, taskP2] (by decide),
   by decide,
   claim_C4_dequeue_priority_order.2 [taskP1, taskP3, taskP2] (by decide)⟩

/-- C5: while `retryCount < maxRetries`, `failTask` increments
`retryCount`, records the error, returns the task to `pending` with the
exponential backoff `scheduledFor = now + base * 2 ^ retryCount`, and (as
`Fail` is only reached after the task was dequeued, i.e. once
`scheduledFor ≤ now`) strictly increases `scheduledFor`; once retries are
exhausted the status becomes `failed` with everything else unchanged, and
every further `failTask` call is a no-op — the task is never reset to
`pending`. -/
theorem claim_C5_fail_retry_backoff (t : BackgroundTask) (now : Nat) (err : String) :
    (t.retryCount < t.maxRetries →
       failTask now err t =
         { t with
           retryCount := t.retryCount + 1
           lastError := some err
           scheduledFor := now + backoffBase * 2 ^ (t.retryCount + 1)
           status := TaskStatus.pending } ∧
       (t.scheduledFor ≤ now →
          t.scheduledFor < (failTask now err t).scheduledFor)) ∧
    (t.maxRetries ≤ t.retryCount →
       (failTask now err t).status = TaskStatus.failed ∧
       (failTask now err t).retryCount = t.retryCount ∧
       (failTask now err t).scheduledFor = t.scheduledFor ∧
       ∀ (now2 : Nat) (err2 : String),
         failTask now2 err2 (failTask now err t) = failTask now err t) := by
  constructor
  · intro h
    constructor
    · rw [failTask, if_pos h]
    · intro hle
      rw [failTask, if_pos h]
      have hpos : 0 < backoffBase * 2 ^ (t.retryCount + 1) :=
        Nat.mul_pos (by decide) (pow_pos (by omega) _)
      show t.scheduledFor < now + backoffBase * 2 ^ (t.retryCount + 1)
      omega
  · intro h
    have hnot : ¬t.retryCount < t.maxRetries := by omega
    rw [failTask, if_neg hnot]
    refine ⟨rfl, rfl, rfl, ?_⟩
    intro now2 err2
    rw [failTask, if_neg hnot]

/-- C5 witness: one retryable failure on the priority-1 task (backoff
strictly pushes `scheduledFor` out), and a permanently failed task on
which a further `failTask` is a no-op. -/
theorem claim_C5_witness :
    failTask 100 "boom" taskP1 =
      { taskP1 with
        retryCount := taskP1.retryCount + 1
        lastError := some "boom"
        scheduledFor := 100 + backoffBase * 2 ^ (taskP1.retryCount + 1)
        status := TaskStatus.pending } ∧
    taskP1.scheduledFor < (failTask 100 "boom" taskP1).scheduledFor ∧
    (failTask 200 "again" taskExhausted).status = TaskStatus.failed ∧
    failTask 300 "more" (failTask 200 "again" taskExhausted) =
      failTask 200 "again" taskExhausted :=
  ⟨((claim_C5_fail_retry_backoff taskP1 100 "boom").1 (by decide)).1,
   ((claim_C5_fail_retry_backoff taskP1 100 "boom").1 (by decide)).2 (by decide),
   ((claim_C5_fail_retry_backoff taskExhausted 200 "again").2 (by decide)).1,
   (((claim_C5_fail_retry_backoff taskExhausted 200 "again").2 (by decide)).2.2.2)
     300 "more"⟩

/-- C10: for every chat message, `enhanced_chat` reports success, its
orchestration activates both the `memory` and `performance` services (so
`services_utilized` is at least 2), and the result text starts with
"I understand you're asking about: " followed by the original message. -/
theorem claim_C10_chat_always_succeeds (m : ChatMessage) :
    (enhanced_chat m).success = true ∧
    (∃ dat, (enhanced_chat m).data = some dat ∧
       "memory" ∈ dat.orchestration.activated_services ∧
       "performance" ∈ dat.orchestration.activated_services ∧
       2 ≤ dat.services_utilized) ∧
    (∃ rest, (enhanced_chat m).result =
       some ("I understand you're asking about: " ++ m.message ++ rest)) := by
  refine ⟨rfl, ⟨_, rfl, ?_, ?_, ?_⟩, ⟨_, rfl⟩⟩
  · simp [enhanced_chat]
  · simp [enhanced_chat]
  · simp only [enhanced_chat, List.length_append, List.length_cons,
      List.length_nil]
    omega

end AIBrowser
